import Mathlib

/-!
Shallow embedding of the TaskMaster-Pro backend (src/backend/main.py).

The backend is a small FastAPI application with in-memory storage:
a dict `users_db` keyed by email, a list `tasks_db`, and two global
counters.  We model the dict as an insertion-ordered association list
(Python dicts preserve insertion order and registration never removes
keys), mutation as explicit state passing, and the two external effects
(`secrets.token_hex` and `datetime.now().strftime`) as extra input
parameters of the operations that use them.  `hashlib.sha256(...).hexdigest()`
is embedded as a full executable SHA-256 over `Nat` with explicit
`% 2^32` wrap-around.
-/

/-! ### SHA-256 (model of `hashlib.sha256(x.encode()).hexdigest()`) -/

/-- Wrap a natural number to 32 bits. -/
def w32 (n : Nat) : Nat := n % 4294967296

/-- 32-bit right rotation (input assumed < 2^32). -/
def rotr32 (x n : Nat) : Nat := w32 ((x >>> n) ||| (x <<< (32 - n)))

def smallSigma0 (x : Nat) : Nat := (rotr32 x 7) ^^^ (rotr32 x 18) ^^^ (x >>> 3)

def smallSigma1 (x : Nat) : Nat := (rotr32 x 17) ^^^ (rotr32 x 19) ^^^ (x >>> 10)

def bigSigma0 (x : Nat) : Nat := (rotr32 x 2) ^^^ (rotr32 x 13) ^^^ (rotr32 x 22)

def bigSigma1 (x : Nat) : Nat := (rotr32 x 6) ^^^ (rotr32 x 11) ^^^ (rotr32 x 25)

/-- The 64 SHA-256 round constants (FIPS 180-4, written in decimal). -/
def shaK : List Nat :=
  [1116352408, 1899447441, 3049323471, 3921009573, 961987163, 1508970993,
   2453635748, 2870763221, 3624381080, 310598401, 607225278, 1426881987,
   1925078388, 2162078206, 2614888103, 3248222580, 3835390401, 4022224774,
   264347078, 604807628, 770255983, 1249150122, 1555081692, 1996064986,
   2554220882, 2821834349, 2952996808, 3210313671, 3336571891, 3584528711,
   113926993, 338241895, 666307205, 773529912, 1294757372, 1396182291,
   1695183700, 1986661051, 2177026350, 2456956037, 2730485921, 2820302411,
   3259730800, 3345764771, 3516065817, 3600352804, 4094571909, 275423344,
   430227734, 506948616, 659060556, 883997877, 958139571, 1322822218,
   1537002063, 1747873779, 1955562222, 2024104815, 2227730452, 2361852424,
   2428436474, 2756734187, 3204031479, 3329325298]

/-- The initial SHA-256 hash state (FIPS 180-4, written in decimal). -/
def shaH0 : List Nat :=
  [1779033703, 3144134277, 1013904242, 2773480762,
   1359893119, 2600822924, 528734635, 1541459225]

/-- Extend a 16-word message block by `k` further schedule words. -/
def extendWords (w : List Nat) : Nat → List Nat
  | 0 => w
  | k + 1 =>
    let n := w.length
    let next := w32 (smallSigma1 (w.getD (n - 2) 0) + w.getD (n - 7) 0 +
      smallSigma0 (w.getD (n - 15) 0) + w.getD (n - 16) 0)
    extendWords (w ++ [next]) k

/-- The eight working registers of the SHA-256 compression function. -/
structure Sha8 where
  a : Nat
  b : Nat
  c : Nat
  d : Nat
  e : Nat
  f : Nat
  g : Nat
  h : Nat

/-- One round of the SHA-256 compression function. -/
def shaRound (st : Sha8) (kw : Nat × Nat) : Sha8 :=
  let ch := (st.e &&& st.f) ^^^ ((st.e ^^^ 0xffffffff) &&& st.g)
  let maj := (st.a &&& st.b) ^^^ (st.a &&& st.c) ^^^ (st.b &&& st.c)
  let t1 := w32 (st.h + bigSigma1 st.e + ch + kw.1 + kw.2)
  let t2 := w32 (bigSigma0 st.a + maj)
  ⟨w32 (t1 + t2), st.a, st.b, st.c, w32 (st.d + t1), st.e, st.f, st.g⟩

/-- Process one 16-word block, updating the 8-word hash state. -/
def processBlock (hs : List Nat) (block : List Nat) : List Nat :=
  let w := extendWords block 48
  let st0 : Sha8 := ⟨hs.getD 0 0, hs.getD 1 0, hs.getD 2 0, hs.getD 3 0,
    hs.getD 4 0, hs.getD 5 0, hs.getD 6 0, hs.getD 7 0⟩
  let stF := (shaK.zip w).foldl shaRound st0
  [w32 (hs.getD 0 0 + stF.a), w32 (hs.getD 1 0 + stF.b), w32 (hs.getD 2 0 + stF.c),
   w32 (hs.getD 3 0 + stF.d), w32 (hs.getD 4 0 + stF.e), w32 (hs.getD 5 0 + stF.f),
   w32 (hs.getD 6 0 + stF.g), w32 (hs.getD 7 0 + stF.h)]

/-- Big-endian byte expansion of `n` on `k` bytes. -/
def bytesBE : Nat → Nat → List Nat
  | 0, _ => []
  | k + 1, n => bytesBE k (n / 256) ++ [n % 256]

/-- SHA-256 padding: append 0x80, zeros, and the 64-bit big-endian bit length. -/
def padMessage (msg : List Nat) : List Nat :=
  let L := msg.length
  let z := (119 - (L % 64)) % 64
  msg ++ [0x80] ++ List.replicate z 0 ++ bytesBE 8 (8 * L)

/-- Group bytes into big-endian 32-bit words. -/
def wordsOfBytes : List Nat → List Nat
  | b0 :: b1 :: b2 :: b3 :: rest =>
    (((b0 * 256 + b1) * 256 + b2) * 256 + b3) :: wordsOfBytes rest
  | _ => []

/-- Split a word list into 16-word blocks. -/
def chunk16 (ws : List Nat) : List (List Nat) :=
  if h : ws = [] then []
  else ws.take 16 :: chunk16 (ws.drop 16)
termination_by ws.length
decreasing_by
  cases ws with
  | nil => exact absurd rfl h
  | cons x xs => simp; omega

/-- UTF-8 encoding of a Unicode code point (model of Python `str.encode()`). -/
def utf8Bytes (c : Nat) : List Nat :=
  if c < 0x80 then [c]
  else if c < 0x800 then
    [0xC0 ||| (c >>> 6), 0x80 ||| (c &&& 0x3F)]
  else if c < 0x10000 then
    [0xE0 ||| (c >>> 12), 0x80 ||| ((c >>> 6) &&& 0x3F), 0x80 ||| (c &&& 0x3F)]
  else
    [0xF0 ||| (c >>> 18), 0x80 ||| ((c >>> 12) &&& 0x3F),
     0x80 ||| ((c >>> 6) &&& 0x3F), 0x80 ||| (c &&& 0x3F)]

/-- UTF-8 bytes of a string. -/
def strBytes (s : String) : List Nat := (s.data.map (fun c => utf8Bytes c.toNat)).flatten

/-- Lowercase hexadecimal digit. -/
def hexDigit (n : Nat) : Char := if n < 10 then Char.ofNat (48 + n) else Char.ofNat (87 + n)

/-- Eight-hex-digit rendering of a 32-bit word. -/
def hex8 (n : Nat) : List Char := (List.range 8).map (fun i => hexDigit ((n >>> (28 - 4 * i)) &&& 15))

/-- SHA-256 hex digest of a string. -/
def sha256hex (s : String) : String :=
  let blocks := chunk16 (wordsOfBytes (padMessage (strBytes s)))
  let hs := blocks.foldl processBlock shaH0
  ⟨(hs.map hex8).flatten⟩

/-- main.py line 57: `hash_password` returns the SHA-256 hexdigest of the password. -/
def hash_password (password : String) : String := sha256hex password

namespace TaskMaster

/-! ### Data model (main.py lines 21-54) -/

/-- main.py lines 28-29: the `User` response model (`UserBase` plus `id`). -/
structure User where
  id : Nat
  email : String
  name : String
deriving Repr, DecidableEq

/-- main.py lines 35-42: `TaskBase`/`TaskCreate` request model with its
pydantic field defaults. -/
structure TaskCreate where
  title : String
  description : Option String := none
  priority : String := "media"
  status : String := "pendiente"
deriving Repr, DecidableEq

/-- main.py lines 44-48: the stored `Task` model. -/
structure Task where
  id : Nat
  user_id : Nat
  title : String
  description : Option String
  priority : String
  status : String
  created_at : String
  updated_at : String
deriving Repr, DecidableEq

/-- A value of the `users_db` dict (main.py lines 73-77): id, name,
password hash, and the optional `"token"` key set by login. -/
structure UserRec where
  id : Nat
  name : String
  password_hash : String
  token : Option String := none
deriving Repr, DecidableEq

/-- The process-wide mutable state (main.py lines 50-54): `users_db` is a
Python dict keyed by email, modelled as an insertion-ordered association
list with unique keys; `tasks_db` is a list; two id counters. -/
structure AppState where
  users_db : List (String × UserRec)
  tasks_db : List Task
  current_user_id : Nat
  current_task_id : Nat
deriving Repr, DecidableEq

/-- The state at process start: empty stores, both counters at 1. -/
def initState : AppState :=
  { users_db := [], tasks_db := [], current_user_id := 1, current_task_id := 1 }

/-- The four `HTTPException` kinds raised by main.py. -/
inductive ApiError where
  | duplicateAccount
  | invalidCredentials
  | invalidToken
  | taskNotFound
deriving Repr, DecidableEq

/-- The HTTP status code of each error (main.py lines 70, 87, 106, 152, 164, 175). -/
def ApiError.statusCode : ApiError → Nat
  | .duplicateAccount => 400
  | .invalidCredentials => 401
  | .invalidToken => 401
  | .taskNotFound => 404

/-! ### Operations (main.py lines 60-193)

`secrets.token_hex(32)` and `datetime.datetime.now().strftime("%Y-%m-%d %H:%M")`
are external effects; the operations take the generated token (`freshToken`)
and the formatted current time (`now`) as explicit arguments. -/

/-- Python `users_db.get(email)` on the association-list model. -/
def lookupEmail (db : List (String × UserRec)) (email : String) : Option UserRec :=
  (db.find? (fun p => decide (p.1 = email))).map Prod.snd

/-- main.py lines 60-65: `verify_user`. -/
def verify_user (s : AppState) (email password : String) : Option User :=
  match lookupEmail s.users_db email with
  | some ud =>
    if ud.password_hash = hash_password password then
      some { id := ud.id, email := email, name := ud.name }
    else none
  | none => none

/-- main.py lines 68-82: `register`.  Fails with 400 if the email is a key of
`users_db`; otherwise inserts the record, increments the user counter, and
returns the new user id (`current_user_id - 1` after the increment). -/
def register (s : AppState) (email name password : String) :
    Except ApiError Nat × AppState :=
  if s.users_db.any (fun p => decide (p.1 = email)) then
    (.error .duplicateAccount, s)
  else
    (.ok s.current_user_id,
     { s with
        users_db := s.users_db ++
          [(email, { id := s.current_user_id, name := name,
                     password_hash := hash_password password })],
        current_user_id := s.current_user_id + 1 })

/-- Python `users_db[email]["token"] = tok`: update the record at the key. -/
def setToken (db : List (String × UserRec)) (email tok : String) :
    List (String × UserRec) :=
  db.map (fun p => if p.1 = email then (p.1, { p.2 with token := some tok }) else p)

/-- main.py lines 84-99: `login`.  `freshToken` stands for the
`secrets.token_hex(32)` result. -/
def login (s : AppState) (email password freshToken : String) :
    Except ApiError (String × User) × AppState :=
  match verify_user s email password with
  | none => (.error .invalidCredentials, s)
  | some user =>
    (.ok (freshToken, user), { s with users_db := setToken s.users_db email freshToken })

/-- main.py lines 102-106: `get_current_user` scans `users_db` in insertion
order for a record whose `"token"` entry equals the given token. -/
def get_current_user (s : AppState) (token : String) : Except ApiError User :=
  match s.users_db.find? (fun p => decide (p.2.token = some token)) with
  | some p => .ok { id := p.2.id, email := p.1, name := p.2.name }
  | none => .error .invalidToken

/-- main.py lines 109-114: `get_tasks` filters the caller's tasks and sorts
by descending id (Python `sorted(..., key=id, reverse=True)` is a stable
sort; so is `List.mergeSort`). -/
def get_tasks (s : AppState) (token : String) :
    Except ApiError (List Task) × AppState :=
  match get_current_user s token with
  | .error e => (.error e, s)
  | .ok user =>
    let user_tasks := s.tasks_db.filter (fun t => decide (t.user_id = user.id))
    (.ok (user_tasks.mergeSort (fun a b => decide (b.id ≤ a.id))), s)

/-- main.py lines 116-136: `create_task`.  `now` stands for the formatted
`datetime.datetime.now()` (minute resolution). -/
def create_task (s : AppState) (task_data : TaskCreate) (token now : String) :
    Except ApiError Task × AppState :=
  match get_current_user s token with
  | .error e => (.error e, s)
  | .ok user =>
    let new_task : Task :=
      { id := s.current_task_id, user_id := user.id, title := task_data.title,
        description := task_data.description, priority := task_data.priority,
        status := task_data.status, created_at := now, updated_at := now }
    (.ok new_task,
     { s with tasks_db := s.tasks_db ++ [new_task],
              current_task_id := s.current_task_id + 1 })

/-- The loop of main.py lines 142-150: find the first task matching the id
and owner, overwrite its mutable fields in place, return it and the
resulting list. -/
def updateFirst (tasks : List Task) (task_id uid : Nat) (task_data : TaskCreate)
    (now : String) : Option (Task × List Task) :=
  match tasks with
  | [] => none
  | t :: rest =>
    if t.id = task_id ∧ t.user_id = uid then
      let t' : Task :=
        { t with title := task_data.title, description := task_data.description,
                 priority := task_data.priority, status := task_data.status,
                 updated_at := now }
      some (t', t' :: rest)
    else
      match updateFirst rest task_id uid task_data now with
      | some (u, rest') => some (u, t :: rest')
      | none => none

/-- main.py lines 138-152: `update_task`. -/
def update_task (s : AppState) (task_id : Nat) (task_data : TaskCreate)
    (token now : String) : Except ApiError Task × AppState :=
  match get_current_user s token with
  | .error e => (.error e, s)
  | .ok user =>
    match updateFirst s.tasks_db task_id user.id task_data now with
    | some (t, ts) => (.ok t, { s with tasks_db := ts })
    | none => (.error .taskNotFound, s)

/-- The loop of main.py lines 158-161: pop the first task matching the id
and owner, returning it and the remaining list. -/
def removeFirst (tasks : List Task) (task_id uid : Nat) :
    Option (Task × List Task) :=
  match tasks with
  | [] => none
  | t :: rest =>
    if t.id = task_id ∧ t.user_id = uid then some (t, rest)
    else
      match removeFirst rest task_id uid with
      | some (d, rest') => some (d, t :: rest')
      | none => none

/-- main.py lines 154-164: `delete_task`. -/
def delete_task (s : AppState) (task_id : Nat) (token : String) :
    Except ApiError Task × AppState :=
  match get_current_user s token with
  | .error e => (.error e, s)
  | .ok user =>
    match removeFirst s.tasks_db task_id user.id with
    | some (d, ts) => (.ok d, { s with tasks_db := ts })
    | none => (.error .taskNotFound, s)

/-- main.py lines 166-175: `get_task` returns the first task matching the id
and owner. -/
def get_task (s : AppState) (task_id : Nat) (token : String) :
    Except ApiError Task × AppState :=
  match get_current_user s token with
  | .error e => (.error e, s)
  | .ok user =>
    match s.tasks_db.find? (fun t => decide (t.id = task_id ∧ t.user_id = user.id)) with
    | some t => (.ok t, s)
    | none => (.error .taskNotFound, s)

/-- The loop of main.py lines 188-191: pop the `"token"` key of the first
record holding this token. -/
def clearFirstToken : List (String × UserRec) → String → List (String × UserRec)
  | [], _ => []
  | p :: rest, tok =>
    if p.2.token = some tok then (p.1, { p.2 with token := none }) :: rest
    else p :: clearFirstToken rest tok

/-- main.py lines 186-193: `logout`. -/
def logout (s : AppState) (token : String) : Except ApiError Unit × AppState :=
  match s.users_db.find? (fun p => decide (p.2.token = some token)) with
  | some _ => (.ok (), { s with users_db := clearFirstToken s.users_db token })
  | none => (.error .invalidToken, s)

/-- The states reachable from process start by any sequence of endpoint
calls, with arbitrary request data, fresh tokens and clock readings. -/
inductive Reachable : AppState → Prop where
  | init : Reachable initState
  | step_register (s : AppState) (e n p : String) :
      Reachable s → Reachable (register s e n p).2
  | step_login (s : AppState) (e p tok : String) :
      Reachable s → Reachable (login s e p tok).2
  | step_logout (s : AppState) (tok : String) :
      Reachable s → Reachable (logout s tok).2
  | step_list (s : AppState) (tok : String) :
      Reachable s → Reachable (get_tasks s tok).2
  | step_create (s : AppState) (td : TaskCreate) (tok now : String) :
      Reachable s → Reachable (create_task s td tok now).2
  | step_update (s : AppState) (tid : Nat) (td : TaskCreate) (tok now : String) :
      Reachable s → Reachable (update_task s tid td tok now).2
  | step_delete (s : AppState) (tid : Nat) (tok : String) :
      Reachable s → Reachable (delete_task s tid tok).2
  | step_get (s : AppState) (tid : Nat) (tok : String) :
      Reachable s → Reachable (get_task s tid tok).2


deriving instance DecidableEq for Except

/-! ### Concrete example states (used by witnesses and counterexamples) -/

/-- Example task 1, owned by user 1. -/
def taskA1 : Task :=
  { id := 1, user_id := 1, title := "t1", description := none, priority := "media",
    status := "pendiente", created_at := "2025-01-01 10:00", updated_at := "2025-01-01 10:00" }

/-- Example task 2, owned by user 2. -/
def taskB2 : Task :=
  { id := 2, user_id := 2, title := "t2", description := some "d2", priority := "alta",
    status := "pendiente", created_at := "2025-01-01 10:01", updated_at := "2025-01-01 10:01" }

/-- Example task 3, owned by user 1. -/
def taskA3 : Task :=
  { id := 3, user_id := 1, title := "t3", description := none, priority := "baja",
    status := "completada", created_at := "2025-01-01 10:02", updated_at := "2025-01-01 10:02" }

/-- Example state: two logged-in users and three tasks. -/
def exampleState : AppState :=
  { users_db :=
      [("a@x.com", { id := 1, name := "Ann", password_hash := "h1", token := some "tokA" }),
       ("b@x.com", { id := 2, name := "Bob", password_hash := "h2", token := some "tokB" })],
    tasks_db := [taskA1, taskB2, taskA3],
    current_user_id := 3, current_task_id := 4 }

/-- Example state: one registered, not-yet-logged-in user. -/
def regState : AppState :=
  { users_db :=
      [("a@x.com", { id := 1, name := "Ann", password_hash := hash_password "pw1",
                     token := none })],
    tasks_db := [], current_user_id := 2, current_task_id := 1 }

/-- The task produced by the C9/C10 witness updates. -/
def taskB2upd : Task :=
  { id := 2, user_id := 2, title := "plain", description := none, priority := "media",
    status := "pendiente", created_at := "2025-01-01 10:01",
    updated_at := "2025-01-02 12:00" }

/-- The state produced by the C9/C10 witness updates. -/
def stateB2upd : AppState :=
  { exampleState with tasks_db := [taskA1, taskB2upd, taskA3] }

/-- The state after the C7 witness delete. -/
def stateDel : AppState := { exampleState with tasks_db := [taskB2, taskA3] }

/-- Task ids strictly increase in store (= creation) order and stay below
the id counter. -/
def TaskIdsOk (s : AppState) : Prop :=
  (s.tasks_db.map Task.id).Pairwise (· < ·) ∧
  ∀ t ∈ s.tasks_db, t.id < s.current_task_id

/-! ### Helper lemmas -/


/-- `get_current_user` fails exactly when no stored record holds the token. -/
theorem get_current_user_error_iff (s : AppState) (tok : String) :
    get_current_user s tok = .error .invalidToken ↔
      ∀ p ∈ s.users_db, p.2.token ≠ some tok := by
  constructor
  · intro h p hp htok
    unfold get_current_user at h
    rcases hf : s.users_db.find? (fun q => decide (q.2.token = some tok)) with _ | q
    · have := List.find?_eq_none.mp hf p hp
      simp [htok] at this
    · rw [hf] at h
      simp at h
  · intro h
    unfold get_current_user
    rcases hf : s.users_db.find? (fun q => decide (q.2.token = some tok)) with _ | q
    · rw [hf]
    · have hq := List.find?_some hf
      have hmem := List.mem_of_find?_eq_some hf
      simp at hq
      exact absurd hq (h q hmem)

/-- A successful `get_current_user` comes from a stored record holding the token. -/
theorem get_current_user_ok_spec (s : AppState) (tok : String) (u : User)
    (h : get_current_user s tok = .ok u) :
    ∃ p ∈ s.users_db, p.2.token = some tok ∧
      u = { id := p.2.id, email := p.1, name := p.2.name } := by
  unfold get_current_user at h
  rcases hf : s.users_db.find? (fun q => decide (q.2.token = some tok)) with _ | q
  · rw [hf] at h; simp at h
  · rw [hf] at h
    simp at h
    have hq := List.find?_some hf
    have hmem := List.mem_of_find?_eq_some hf
    simp at hq
    exact ⟨q, hmem, hq, h.symm⟩

/-- If no task matches the id/owner pair, the update loop falls through. -/
theorem updateFirst_eq_none (l : List Task) (tid uid : Nat) (td : TaskCreate)
    (now : String) (h : ∀ t ∈ l, ¬(t.id = tid ∧ t.user_id = uid)) :
    updateFirst l tid uid td now = none := by
  induction l with
  | nil => rfl
  | cons t rest ih =>
    simp only [updateFirst]
    rw [if_neg (h t (List.mem_cons_self t rest)),
      ih (fun t2 h2 => h t2 (List.mem_cons_of_mem t h2))]

/-- If no task matches the id/owner pair, the delete loop falls through. -/
theorem removeFirst_eq_none (l : List Task) (tid uid : Nat)
    (h : ∀ t ∈ l, ¬(t.id = tid ∧ t.user_id = uid)) :
    removeFirst l tid uid = none := by
  induction l with
  | nil => rfl
  | cons t rest ih =>
    simp only [removeFirst]
    rw [if_neg (h t (List.mem_cons_self t rest)),
      ih (fun t2 h2 => h t2 (List.mem_cons_of_mem t h2))]

/-- Structure of a successful update loop: the first matching task is
overwritten in place and everything else is untouched. -/
theorem updateFirst_eq_some (l : List Task) (tid uid : Nat) (td : TaskCreate)
    (now : String) (t' : Task) (l2 : List Task)
    (h : updateFirst l tid uid td now = some (t', l2)) :
    ∃ l1 t l3, l = l1 ++ t :: l3 ∧ l2 = l1 ++ t' :: l3 ∧
      t.id = tid ∧ t.user_id = uid ∧
      t' = { t with title := td.title, description := td.description,
                    priority := td.priority, status := td.status,
                    updated_at := now } := by
  induction l generalizing l2 with
  | nil => simp [updateFirst] at h
  | cons t rest ih =>
    simp only [updateFirst] at h
    by_cases hc : t.id = tid ∧ t.user_id = uid
    · rw [if_pos hc] at h
      simp at h
      obtain ⟨h1, h2⟩ := h
      refine ⟨[], t, rest, rfl, ?_, hc.1, hc.2, h1.symm⟩
      simp [← h2, ← h1]
    · rw [if_neg hc] at h
      rcases hr : updateFirst rest tid uid td now with _ | pr
      · rw [hr] at h; simp at h
      · rw [hr] at h
        rcases pr with ⟨u2, rest2⟩
        simp at h
        obtain ⟨hu, hl2⟩ := h
        obtain ⟨l1, t0, l3, he1, he2, he3, he4, he5⟩ := ih rest2 (by rw [hr, hu])
        exact ⟨t :: l1, t0, l3, by rw [he1]; rfl, by rw [← hl2, he2]; rfl, he3, he4, he5⟩

/-- Structure of a successful delete loop: the first matching task is removed
and everything else is untouched. -/
theorem removeFirst_eq_some (l : List Task) (tid uid : Nat) (d : Task) (l2 : List Task)
    (h : removeFirst l tid uid = some (d, l2)) :
    ∃ l1 l3, l = l1 ++ d :: l3 ∧ l2 = l1 ++ l3 ∧ d.id = tid ∧ d.user_id = uid := by
  induction l generalizing l2 with
  | nil => simp [removeFirst] at h
  | cons t rest ih =>
    simp only [removeFirst] at h
    by_cases hc : t.id = tid ∧ t.user_id = uid
    · rw [if_pos hc] at h
      simp at h
      obtain ⟨h1, h2⟩ := h
      exact ⟨[], rest, by simp [h1], by simp [h2], h1 ▸ hc.1, h1 ▸ hc.2⟩
    · rw [if_neg hc] at h
      rcases hr : removeFirst rest tid uid with _ | pr
      · rw [hr] at h; simp at h
      · rw [hr] at h
        rcases pr with ⟨d2, rest2⟩
        simp at h
        obtain ⟨hd, hl2⟩ := h
        obtain ⟨l1, l3, he1, he2, he3, he4⟩ := ih rest2 (by rw [hr, hd])
        exact ⟨t :: l1, l3, by rw [he1]; rfl, by rw [← hl2, he2]; rfl, he3, he4⟩



/-- Characterization of a successful `update_task`: the first task matching
the id and the caller's identity is overwritten in place; nothing else in
the state changes. -/
theorem update_task_ok_spec (s s' : AppState) (tid : Nat) (td : TaskCreate)
    (tok now : String) (t' : Task)
    (h : update_task s tid td tok now = (.ok t', s')) :
    ∃ l1 t l3, s.tasks_db = l1 ++ t :: l3 ∧ s'.tasks_db = l1 ++ t' :: l3 ∧
      t.id = tid ∧
      t' = { t with title := td.title, description := td.description,
                    priority := td.priority, status := td.status,
                    updated_at := now } ∧
      s'.users_db = s.users_db ∧ s'.current_user_id = s.current_user_id ∧
      s'.current_task_id = s.current_task_id := by
  rcases hu : get_current_user s tok with e | u
  · simp [update_task, hu] at h
  · rcases hf : updateFirst s.tasks_db tid u.id td now with _ | pr
    · simp [update_task, hu, hf] at h
    · rcases pr with ⟨t2, ts⟩
      simp [update_task, hu, hf] at h
      obtain ⟨ht2, hs⟩ := h
      obtain ⟨l1, t0, l3, e1, e2, e3, _, e5⟩ :=
        updateFirst_eq_some s.tasks_db tid u.id td now t' ts (by rw [hf, ht2])
      refine ⟨l1, t0, l3, e1, ?_, e3, e5, ?_, ?_, ?_⟩ <;> rw [← hs]
      exact e2

/-! ### Claims -/

/-- C4: for every token that no account currently holds, list, create, get,
update, and delete all fail with `InvalidToken` (HTTP 401) and leave the
whole state — task store and counters included — unchanged. -/
theorem C4_invalid_token_short_circuit (s : AppState) (tok : String)
    (hno : ∀ p ∈ s.users_db, p.2.token ≠ some tok) :
    get_tasks s tok = (.error .invalidToken, s) ∧
    (∀ td now, create_task s td tok now = (.error .invalidToken, s)) ∧
    (∀ tid, get_task s tid tok = (.error .invalidToken, s)) ∧
    (∀ tid td now, update_task s tid td tok now = (.error .invalidToken, s)) ∧
    (∀ tid, delete_task s tid tok = (.error .invalidToken, s)) ∧
    ApiError.invalidToken.statusCode = 401 := by
  have h := (get_current_user_error_iff s tok).mpr hno
  refine ⟨?_, ?_, ?_, ?_, ?_, rfl⟩ <;>
    simp [get_tasks, create_task, get_task, update_task, delete_task, h]

/-- Witness for C4 at a concrete state and token. -/
theorem C4_witness :
    get_tasks exampleState "nobody" = (.error .invalidToken, exampleState) ∧
    (∀ td now, create_task exampleState td "nobody" now =
      (.error .invalidToken, exampleState)) ∧
    (∀ tid, get_task exampleState tid "nobody" = (.error .invalidToken, exampleState)) ∧
    (∀ tid td now, update_task exampleState tid td "nobody" now =
      (.error .invalidToken, exampleState)) ∧
    (∀ tid, delete_task exampleState tid "nobody" = (.error .invalidToken, exampleState)) ∧
    ApiError.invalidToken.statusCode = 401 :=
  C4_invalid_token_short_circuit exampleState "nobody" (by decide)


/-- Counterexample to C5 as stated: with an omitted priority and status, the
created task's fields are the source defaults "media" and "pendiente", not
"medium" and "pending". -/
theorem C5_counterexample :
    (create_task exampleState { title := "Buy milk" } "tokA" "2025-01-02 09:00").1 =
      .ok { id := 4, user_id := 1, title := "Buy milk", description := none,
            priority := "media", status := "pendiente",
            created_at := "2025-01-02 09:00", updated_at := "2025-01-02 09:00" } ∧
    "media" ≠ "medium" ∧ "pendiente" ≠ "pending" := by
  refine ⟨?_, by decide, by decide⟩
  decide

/-- C5 (amended): a creation request that omits priority and status yields a
task with priority "media" and status "pendiente", the defaults declared on
the request model. -/
theorem C5_create_defaults (s : AppState) (tok now title : String) (u : User)
    (h : get_current_user s tok = .ok u) :
    (create_task s { title := title } tok now).1 =
      .ok { id := s.current_task_id, user_id := u.id, title := title,
            description := none, priority := "media", status := "pendiente",
            created_at := now, updated_at := now } := by
  simp [create_task, h]

/-- Witness for the amended C5 at a concrete state. -/
theorem C5_witness :
    (create_task exampleState { title := "w" } "tokB" "2025-01-02 09:30").1 =
      .ok { id := 4, user_id := 2, title := "w",
            description := none, priority := "media", status := "pendiente",
            created_at := "2025-01-02 09:30", updated_at := "2025-01-02 09:30" } :=
  C5_create_defaults exampleState "tokB" "2025-01-02 09:30" "w"
    { id := 2, email := "b@x.com", name := "Bob" } (by decide)

/-- C6: registering an email that is already a key of the store fails with
`DuplicateAccount` (HTTP 400) and changes nothing; registering a fresh email
appends an account with the next sequential id, stores the password digest
with no token, increments the id counter, and returns the new id. -/
theorem C6_register_duplicate_and_fresh (s : AppState) (email name password : String) :
    ((∃ r, (email, r) ∈ s.users_db) →
      register s email name password = (.error .duplicateAccount, s) ∧
      ApiError.duplicateAccount.statusCode = 400) ∧
    ((∀ p ∈ s.users_db, p.1 ≠ email) →
      register s email name password =
        (.ok s.current_user_id,
         { s with
            users_db := s.users_db ++
              [(email, { id := s.current_user_id, name := name,
                         password_hash := hash_password password, token := none })],
            current_user_id := s.current_user_id + 1 })) := by
  constructor
  · rintro ⟨r, hr⟩
    refine ⟨?_, rfl⟩
    have hany : s.users_db.any (fun p => decide (p.1 = email)) = true :=
      List.any_eq_true.mpr ⟨(email, r), hr, by simp⟩
    simp [register, hany]
  · intro hfresh
    have hany : s.users_db.any (fun p => decide (p.1 = email)) = false := by
      simp only [List.any_eq_false, decide_eq_true_eq]
      exact fun p hp => hfresh p hp
    simp [register, hany]

/-- Witness for C6: a duplicate registration and a fresh registration. -/
theorem C6_witness :
    (register exampleState "a@x.com" "Imp" "pw9" = (.error .duplicateAccount, exampleState) ∧
      ApiError.duplicateAccount.statusCode = 400) ∧
    register initState "a@x.com" "Ann" "pw1" =
      (.ok 1,
       { users_db := [("a@x.com", { id := 1, name := "Ann",
                                    password_hash := hash_password "pw1", token := none })],
         tasks_db := [], current_user_id := 2, current_task_id := 1 }) :=
  ⟨(C6_register_duplicate_and_fresh exampleState "a@x.com" "Imp" "pw9").1
      ⟨{ id := 1, name := "Ann", password_hash := "h1", token := some "tokA" }, by decide⟩,
   (C6_register_duplicate_and_fresh initState "a@x.com" "Ann" "pw1").2 (by decide)⟩

/-- C9: a successful update rewrites only the matched task's title,
description, priority, status and updated timestamp; its id, owner and
created timestamp are kept, and every other task, the user store and both
counters are untouched. -/
theorem C9_update_frame (s s' : AppState) (tid : Nat) (td : TaskCreate)
    (tok now : String) (t' : Task)
    (h : update_task s tid td tok now = (.ok t', s')) :
    ∃ l1 t l3, s.tasks_db = l1 ++ t :: l3 ∧ s'.tasks_db = l1 ++ t' :: l3 ∧
      t' = { t with title := td.title, description := td.description,
                    priority := td.priority, status := td.status,
                    updated_at := now } ∧
      t'.id = t.id ∧ t'.user_id = t.user_id ∧ t'.created_at = t.created_at ∧
      s'.users_db = s.users_db ∧ s'.current_user_id = s.current_user_id ∧
      s'.current_task_id = s.current_task_id := by
  obtain ⟨l1, t, l3, e1, e2, _, e4, e5, e6, e7⟩ :=
    update_task_ok_spec s s' tid td tok now t' h
  exact ⟨l1, t, l3, e1, e2, e4, by rw [e4], by rw [e4], by rw [e4], e5, e6, e7⟩



/-- Witness for C9: user 2 updates their task 2. -/
theorem C9_witness :
    ∃ l1 t l3, exampleState.tasks_db = l1 ++ t :: l3 ∧
      stateB2upd.tasks_db = l1 ++ taskB2upd :: l3 ∧
      taskB2upd = { t with title := "plain", description := none,
                           priority := "media", status := "pendiente",
                           updated_at := "2025-01-02 12:00" } ∧
      taskB2upd.id = t.id ∧ taskB2upd.user_id = t.user_id ∧
      taskB2upd.created_at = t.created_at ∧
      stateB2upd.users_db = exampleState.users_db ∧
      stateB2upd.current_user_id = exampleState.current_user_id ∧
      stateB2upd.current_task_id = exampleState.current_task_id :=
  C9_update_frame exampleState stateB2upd 2 { title := "plain" } "tokB"
    "2025-01-02 12:00" taskB2upd (by decide)

/-- C10: `update` has full-replacement semantics — a request carrying only a
title resets description to `none` and priority and status to the request
model's declared defaults, regardless of the task's previous values. -/
theorem C10_update_full_replacement (s s' : AppState) (tid : Nat)
    (title tok now : String) (t' : Task)
    (h : update_task s tid { title := title } tok now = (.ok t', s')) :
    t'.title = title ∧ t'.description = none ∧ t'.priority = "media" ∧
    t'.status = "pendiente" ∧ t'.updated_at = now := by
  obtain ⟨l1, t, l3, _, _, _, e4, _, _, _⟩ :=
    update_task_ok_spec s s' tid { title := title } tok now t' h
  rw [e4]
  exact ⟨rfl, rfl, rfl, rfl, rfl⟩

/-- Witness for C10: updating task 2 — whose description was `some "d2"` and
priority "alta" — with a title-only request resets those fields. -/
theorem C10_witness :
    taskB2upd.title = "plain" ∧ taskB2upd.description = none ∧
    taskB2upd.priority = "media" ∧ taskB2upd.status = "pendiente" ∧
    taskB2upd.updated_at = "2025-01-02 12:00" :=
  C10_update_full_replacement exampleState stateB2upd 2 "plain" "tokB"
    "2025-01-02 12:00" taskB2upd (by decide)


/-- C1: a task owned by one account is not reachable through another
account's valid token: get, update and delete on its id fail with
`TaskNotFound` (HTTP 404) and leave the whole state unchanged. -/
theorem C1_cross_user_isolation (s : AppState) (tokB : String) (uB : User) (t : Task)
    (hB : get_current_user s tokB = .ok uB)
    (ht : t ∈ s.tasks_db)
    (hown : t.user_id ≠ uB.id)
    (huniq : ∀ t2 ∈ s.tasks_db, t2.id = t.id → t2.user_id = t.user_id) :
    get_task s t.id tokB = (.error .taskNotFound, s) ∧
    (∀ td now, update_task s t.id td tokB now = (.error .taskNotFound, s)) ∧
    delete_task s t.id tokB = (.error .taskNotFound, s) ∧
    ApiError.taskNotFound.statusCode = 404 := by
  have hno : ∀ t2 ∈ s.tasks_db, ¬(t2.id = t.id ∧ t2.user_id = uB.id) := by
    rintro t2 h2 ⟨hid, huid⟩
    exact hown (by rw [← huniq t2 h2 hid]; exact huid)
  have hfind : s.tasks_db.find?
      (fun t2 => decide (t2.id = t.id) && decide (t2.user_id = uB.id)) = none :=
    List.find?_eq_none.mpr (by intro x hx; simpa using hno x hx)
  have hrem : removeFirst s.tasks_db t.id uB.id = none :=
    removeFirst_eq_none _ _ _ hno
  refine ⟨?_, ?_, ?_, rfl⟩
  · simp [get_task, hB, hfind]
  · intro td now
    simp [update_task, hB, updateFirst_eq_none s.tasks_db t.id uB.id td now hno]
  · simp [delete_task, hB, hrem]

/-- Witness for C1: user 2's token cannot reach task 1, owned by user 1. -/
theorem C1_witness :
    get_task exampleState taskA1.id "tokB" = (.error .taskNotFound, exampleState) ∧
    (∀ td now, update_task exampleState taskA1.id td "tokB" now =
      (.error .taskNotFound, exampleState)) ∧
    delete_task exampleState taskA1.id "tokB" = (.error .taskNotFound, exampleState) ∧
    ApiError.taskNotFound.statusCode = 404 :=
  C1_cross_user_isolation exampleState "tokB" { id := 2, email := "b@x.com", name := "Bob" }
    taskA1 (by decide) (by decide) (by decide) (by decide)

/-- C7: a successful owner delete returns the removed task; with unique ids
in the store, no task with that id remains, so any later get, update or
delete on that id — by any authenticated caller — fails with `TaskNotFound`
(HTTP 404).  Nothing else in the state changes. -/
theorem C7_delete_then_gone (s s' : AppState) (tid : Nat) (tok : String) (d : Task)
    (hids : (s.tasks_db.map Task.id).Nodup)
    (h : delete_task s tid tok = (.ok d, s')) :
    d.id = tid ∧ d ∈ s.tasks_db ∧
    (∀ t ∈ s'.tasks_db, t.id ≠ tid) ∧
    s'.users_db = s.users_db ∧ s'.current_user_id = s.current_user_id ∧
    s'.current_task_id = s.current_task_id ∧
    (∀ tok2 u2, get_current_user s' tok2 = .ok u2 →
      get_task s' tid tok2 = (.error .taskNotFound, s') ∧
      (∀ td now, update_task s' tid td tok2 now = (.error .taskNotFound, s')) ∧
      delete_task s' tid tok2 = (.error .taskNotFound, s')) ∧
    ApiError.taskNotFound.statusCode = 404 := by
  rcases hu : get_current_user s tok with e | u
  · simp [delete_task, hu] at h
  · rcases hf : removeFirst s.tasks_db tid u.id with _ | pr
    · simp [delete_task, hu, hf] at h
    · rcases pr with ⟨d2, ts⟩
      simp [delete_task, hu, hf] at h
      obtain ⟨hd2, hs⟩ := h
      obtain ⟨l1, l3, e1, e2, e3, _⟩ :=
        removeFirst_eq_some s.tasks_db tid u.id d ts (by rw [hf, hd2])
      have hgone : ∀ t ∈ ts, t.id ≠ tid := by
        have hmid : (Task.id d :: (l1.map Task.id ++ l3.map Task.id)).Nodup := by
          rw [← List.nodup_middle]
          have := hids
          rw [e1] at this
          simpa using this
        intro t htmem
        have : t.id ∈ l1.map Task.id ++ l3.map Task.id := by
          rw [e2] at htmem
          rcases List.mem_append.mp htmem with h1 | h3
          · exact List.mem_append.mpr (Or.inl (List.mem_map_of_mem Task.id h1))
          · exact List.mem_append.mpr (Or.inr (List.mem_map_of_mem Task.id h3))
        rw [← e3]
        exact fun heq => (List.nodup_cons.mp hmid).1 (heq ▸ this)
      have hdm : d ∈ s.tasks_db := by
        rw [e1]
        exact List.mem_append.mpr (Or.inr (List.mem_cons_self d l3))
      subst hs
      refine ⟨e3, hdm, hgone, rfl, rfl, rfl, ?_, rfl⟩
      intro tok2 u2 hu2
      have hno2 : ∀ t2 ∈ ts, ¬(t2.id = tid ∧ t2.user_id = u2.id) := by
        rintro t2 h2 ⟨hid2, _⟩
        exact hgone t2 h2 hid2
      refine ⟨?_, ?_, ?_⟩
      · have hfind : ts.find? (fun t2 => decide (t2.id = tid) && decide (t2.user_id = u2.id)) = none :=
          List.find?_eq_none.mpr (by intro x hx; simpa using hno2 x hx)
        simp [get_task, hu2, hfind]
      · intro td now
        simp [update_task, hu2, updateFirst_eq_none ts tid u2.id td now hno2]
      · simp [delete_task, hu2, removeFirst_eq_none ts tid u2.id hno2]


/-- Witness for C7: user 1 deletes task 1; get, update and delete on id 1
then fail for any authenticated caller. -/
theorem C7_witness :
    taskA1.id = 1 ∧ taskA1 ∈ exampleState.tasks_db ∧
    (∀ t ∈ stateDel.tasks_db, t.id ≠ 1) ∧
    stateDel.users_db = exampleState.users_db ∧
    stateDel.current_user_id = exampleState.current_user_id ∧
    stateDel.current_task_id = exampleState.current_task_id ∧
    (∀ tok2 u2, get_current_user stateDel tok2 = .ok u2 →
      get_task stateDel 1 tok2 = (.error .taskNotFound, stateDel) ∧
      (∀ td now, update_task stateDel 1 td tok2 now = (.error .taskNotFound, stateDel)) ∧
      delete_task stateDel 1 tok2 = (.error .taskNotFound, stateDel)) ∧
    ApiError.taskNotFound.statusCode = 404 :=
  C7_delete_then_gone exampleState stateDel 1 "tokA" taskA1 (by decide) (by decide)


/-- Membership in `setToken`: an entry either sits at the key and now holds
the token, or is an untouched original entry with a different key. -/
theorem mem_setToken (db : List (String × UserRec)) (email tok : String)
    (p2 : String × UserRec) (h : p2 ∈ setToken db email tok) :
    (p2.1 = email ∧ p2.2.token = some tok) ∨ (p2.1 ≠ email ∧ p2 ∈ db) := by
  simp only [setToken, List.mem_map] at h
  rcases h with ⟨p, hp, hf⟩
  by_cases hc : p.1 = email
  · left
    rw [← hf]
    simp [hc]
  · right
    rw [← hf]
    simp [hc, hp]

/-- After `setToken` with a token fresh for the whole store, scanning for
that token finds exactly the entry the key lookup finds. -/
theorem find?_token_setToken (db : List (String × UserRec)) (email tok : String)
    (hfresh : ∀ p ∈ db, p.2.token ≠ some tok) :
    (setToken db email tok).find? (fun p => decide (p.2.token = some tok)) =
      (db.find? (fun p => decide (p.1 = email))).map
        (fun p => (p.1, { p.2 with token := some tok })) := by
  induction db with
  | nil => rfl
  | cons p rest ih =>
    simp only [setToken, List.map_cons] at ih ⊢
    by_cases hc : p.1 = email
    · rw [if_pos hc, List.find?_cons_of_pos _ (by simp),
        List.find?_cons_of_pos _ (by simp [hc])]
      rfl
    · rw [if_neg hc,
        List.find?_cons_of_neg _ (by simp [hfresh p (List.mem_cons_self p rest)]),
        List.find?_cons_of_neg _ (by simp [hc])]
      exact ih (fun q hq => hfresh q (List.mem_cons_of_mem p hq))

/-- `setToken` rewrites the token of the entry a key lookup returns and
keeps its other fields. -/
theorem lookupEmail_setToken (db : List (String × UserRec)) (email tok : String) :
    lookupEmail (setToken db email tok) email =
      (lookupEmail db email).map (fun ud => { ud with token := some tok }) := by
  induction db with
  | nil => rfl
  | cons p rest ih =>
    simp only [setToken, lookupEmail, List.map_cons] at ih ⊢
    by_cases hc : p.1 = email
    · rw [if_pos hc, List.find?_cons_of_pos _ (by simp [hc]),
        List.find?_cons_of_pos _ (by simp [hc])]
      rfl
    · rw [if_neg hc, List.find?_cons_of_neg _ (by simp [hc]),
        List.find?_cons_of_neg _ (by simp [hc])]
      exact ih

/-- C2: with correct credentials, `login` returns a fresh token that
`get_current_user` resolves back to the same account; a second login for
the same account replaces the token, and resolving the first token then
fails with `InvalidToken` (HTTP 401). -/
theorem C2_login_resolve_invalidate (s : AppState)
    (email password tok1 tok2 : String) (u : User)
    (hfresh : ∀ p ∈ s.users_db, p.2.token ≠ some tok1)
    (hv : verify_user s email password = some u)
    (hne : tok2 ≠ tok1) :
    ∃ s1 s2,
      login s email password tok1 = (.ok (tok1, u), s1) ∧
      get_current_user s1 tok1 = .ok u ∧
      login s1 email password tok2 = (.ok (tok2, u), s2) ∧
      get_current_user s2 tok1 = .error .invalidToken ∧
      ApiError.invalidToken.statusCode = 401 := by
  rcases hl : lookupEmail s.users_db email with _ | ud
  · rw [verify_user, hl] at hv
    simp at hv
  · have hv2 : (if ud.password_hash = hash_password password then
        some { id := ud.id, email := email, name := ud.name } else none) = some u := by
      rw [verify_user, hl] at hv
      exact hv
    by_cases hpw : ud.password_hash = hash_password password
    · rw [if_pos hpw] at hv2
      have hu2 : ({ id := ud.id, email := email, name := ud.name } : User) = u :=
        Option.some.inj hv2
      obtain ⟨p0, hp0, hp0snd⟩ := Option.map_eq_some'.mp hl
      have hp0fst : p0.1 = email := by
        have := List.find?_some hp0
        simpa using this
      refine ⟨{ s with users_db := setToken s.users_db email tok1 },
        { s with users_db := setToken (setToken s.users_db email tok1) email tok2 },
        ?_, ?_, ?_, ?_, rfl⟩
      · simp [login, hv]
      · rw [show get_current_user { s with users_db := setToken s.users_db email tok1 } tok1 =
            (match (setToken s.users_db email tok1).find?
                (fun p => decide (p.2.token = some tok1)) with
              | some p => Except.ok { id := p.2.id, email := p.1, name := p.2.name }
              | none => Except.error ApiError.invalidToken) from rfl]
        rw [find?_token_setToken s.users_db email tok1 hfresh, hp0, Option.map_some']
        simp [hp0fst, hp0snd, hu2]
      · have hv1 : verify_user { s with users_db := setToken s.users_db email tok1 }
            email password = some u := by
          rw [show verify_user { s with users_db := setToken s.users_db email tok1 }
                email password =
              (match lookupEmail (setToken s.users_db email tok1) email with
                | some ud2 =>
                  if ud2.password_hash = hash_password password then
                    some { id := ud2.id, email := email, name := ud2.name }
                  else none
                | none => none) from rfl]
          rw [lookupEmail_setToken, hl, Option.map_some']
          simp [hpw, hu2]
        simp [login, hv1]
      · rw [show get_current_user
            { s with users_db := setToken (setToken s.users_db email tok1) email tok2 } tok1 =
            get_current_user
              ({ s with users_db := setToken (setToken s.users_db email tok1) email tok2 })
              tok1 from rfl,
          get_current_user_error_iff]
        intro p2 hp2
        rcases mem_setToken _ _ _ _ hp2 with ⟨_, htok⟩ | ⟨hne2, hp2m⟩
        · rw [htok]
          simp [hne]
        · rcases mem_setToken _ _ _ _ hp2m with ⟨heq, _⟩ | ⟨_, hp2orig⟩
          · exact absurd heq hne2
          · exact hfresh p2 hp2orig
    · rw [if_neg hpw] at hv2
      simp at hv2

/-- Witness for C2: logging the account of `regState` in twice
(password "pw1"). -/
theorem C2_witness :
    ∃ s1 s2,
      login regState "a@x.com" "pw1" "T1" =
        (.ok ("T1", { id := 1, email := "a@x.com", name := "Ann" }), s1) ∧
      get_current_user s1 "T1" = .ok { id := 1, email := "a@x.com", name := "Ann" } ∧
      login s1 "a@x.com" "pw1" "T2" =
        (.ok ("T2", { id := 1, email := "a@x.com", name := "Ann" }), s2) ∧
      get_current_user s2 "T1" = .error .invalidToken ∧
      ApiError.invalidToken.statusCode = 401 :=
  C2_login_resolve_invalidate regState "a@x.com" "pw1" "T1" "T2"
    { id := 1, email := "a@x.com", name := "Ann" }
    (by decide) (by simp [verify_user, lookupEmail, regState]) (by decide)


/-- C3: `list` returns exactly the caller's tasks — a permutation of the
store filtered to the caller's owner id — in strictly descending id order,
whatever the interleaving of creations was. -/
theorem C3_list_own_tasks_sorted (s : AppState) (tok : String) (u : User)
    (h : get_current_user s tok = .ok u)
    (hids : (s.tasks_db.map Task.id).Nodup) :
    ∃ l, get_tasks s tok = (.ok l, s) ∧
      l.Perm (s.tasks_db.filter (fun t => decide (t.user_id = u.id))) ∧
      (∀ t, t ∈ l ↔ t ∈ s.tasks_db ∧ t.user_id = u.id) ∧
      l.Pairwise (fun a b => b.id < a.id) := by
  refine ⟨(s.tasks_db.filter (fun t => decide (t.user_id = u.id))).mergeSort
      (fun a b => decide (b.id ≤ a.id)), ?_, List.mergeSort_perm _ _, ?_, ?_⟩
  · simp [get_tasks, h]
  · intro t
    rw [List.mem_mergeSort, List.mem_filter]
    simp
  · have hle := @List.sorted_mergeSort Task
      (fun a b : Task => decide (b.id ≤ a.id))
      (fun a b c hab hbc => by simp at hab hbc ⊢; omega)
      (fun a b => by simp [Nat.le_total])
      (s.tasks_db.filter (fun t => decide (t.user_id = u.id)))
    have hperm := (List.mergeSort_perm
      (s.tasks_db.filter (fun t => decide (t.user_id = u.id)))
      (fun a b => decide (b.id ≤ a.id))).map Task.id
    have hnd : ((s.tasks_db.filter (fun t => decide (t.user_id = u.id))).mergeSort
        (fun a b => decide (b.id ≤ a.id))).map Task.id |>.Nodup :=
      hperm.nodup_iff.mpr
        (hids.sublist ((List.filter_sublist s.tasks_db).map Task.id))
    have hne := List.pairwise_map.mp hnd
    exact (hle.and hne).imp (fun hab => by
      obtain ⟨h1, h2⟩ := hab
      simp at h1
      omega)

/-- Witness for C3 at a concrete interleaved store. -/
theorem C3_witness :
    ∃ l, get_tasks exampleState "tokA" = (.ok l, exampleState) ∧
      l.Perm (exampleState.tasks_db.filter (fun t => decide (t.user_id = 1))) ∧
      (∀ t, t ∈ l ↔ t ∈ exampleState.tasks_db ∧ t.user_id = 1) ∧
      l.Pairwise (fun a b => b.id < a.id) :=
  C3_list_own_tasks_sorted exampleState "tokA" { id := 1, email := "a@x.com", name := "Ann" }
    (by decide) (by decide)

/-! ### The task-id invariant over reachable states (for C8) -/


/-- The invariant depends only on the task store and the task counter. -/
theorem TaskIdsOk_of_eq (s s' : AppState) (h1 : s'.tasks_db = s.tasks_db)
    (h2 : s'.current_task_id = s.current_task_id) (h : TaskIdsOk s) : TaskIdsOk s' := by
  unfold TaskIdsOk
  rw [h1, h2]
  exact h

/-- `register` never touches tasks or the task counter. -/
theorem register_tasks_frame (s : AppState) (e n p : String) :
    (register s e n p).2.tasks_db = s.tasks_db ∧
    (register s e n p).2.current_task_id = s.current_task_id := by
  unfold register
  split <;> exact ⟨rfl, rfl⟩

/-- `login` never touches tasks or the task counter. -/
theorem login_tasks_frame (s : AppState) (e p tok : String) :
    (login s e p tok).2.tasks_db = s.tasks_db ∧
    (login s e p tok).2.current_task_id = s.current_task_id := by
  unfold login
  split <;> exact ⟨rfl, rfl⟩

/-- `logout` never touches tasks or the task counter. -/
theorem logout_tasks_frame (s : AppState) (tok : String) :
    (logout s tok).2.tasks_db = s.tasks_db ∧
    (logout s tok).2.current_task_id = s.current_task_id := by
  unfold logout
  split <;> exact ⟨rfl, rfl⟩

/-- `get_tasks` is read-only. -/
theorem get_tasks_snd (s : AppState) (tok : String) : (get_tasks s tok).2 = s := by
  unfold get_tasks
  split <;> rfl

/-- `get_task` is read-only. -/
theorem get_task_snd (s : AppState) (tid : Nat) (tok : String) :
    (get_task s tid tok).2 = s := by
  unfold get_task
  split
  · rfl
  · split <;> rfl

/-- An in-place update keeps the stored id sequence. -/
theorem updateFirst_map_id (l : List Task) (tid uid : Nat) (td : TaskCreate)
    (now : String) (t' : Task) (l2 : List Task)
    (h : updateFirst l tid uid td now = some (t', l2)) :
    l2.map Task.id = l.map Task.id := by
  obtain ⟨l1, t0, l3, e1, e2, _, _, e5⟩ := updateFirst_eq_some l tid uid td now t' l2 h
  rw [e1, e2, e5]
  simp

/-- `create_task` preserves the id invariant. -/
theorem create_task_ids_ok (s : AppState) (td : TaskCreate) (tok now : String)
    (hs : TaskIdsOk s) : TaskIdsOk (create_task s td tok now).2 := by
  unfold create_task
  rcases hu : get_current_user s tok with e | u
  · exact hs
  · constructor
    · show ((s.tasks_db ++ [_]).map Task.id).Pairwise (· < ·)
      rw [List.map_append]
      rw [List.pairwise_append]
      refine ⟨hs.1, by simp, ?_⟩
      intro a ha b hb
      obtain ⟨t0, ht0, hid⟩ := List.mem_map.mp ha
      simp at hb
      rw [hb, ← hid]
      exact hs.2 t0 ht0
    · show ∀ t ∈ s.tasks_db ++ [_], t.id < s.current_task_id + 1
      intro t htm
      rcases List.mem_append.mp htm with hl | hr
      · exact Nat.lt_succ_of_lt (hs.2 t hl)
      · simp at hr
        rw [hr]
        exact Nat.lt_succ_self _

/-- `update_task` preserves the id invariant. -/
theorem update_task_ids_ok (s : AppState) (tid : Nat) (td : TaskCreate)
    (tok now : String) (hs : TaskIdsOk s) : TaskIdsOk (update_task s tid td tok now).2 := by
  unfold update_task
  split
  · exact hs
  · rename_i u hu
    split
    · rename_i pr t2 ts hf
      have hmap := updateFirst_map_id s.tasks_db tid u.id td now t2 ts hf
      constructor
      · show (ts.map Task.id).Pairwise (· < ·)
        rw [hmap]
        exact hs.1
      · show ∀ t ∈ ts, t.id < s.current_task_id
        intro t htm
        have : t.id ∈ ts.map Task.id := List.mem_map_of_mem Task.id htm
        rw [hmap] at this
        obtain ⟨t0, ht0, hid⟩ := List.mem_map.mp this
        rw [← hid]
        exact hs.2 t0 ht0
    · exact hs

/-- `delete_task` preserves the id invariant. -/
theorem delete_task_ids_ok (s : AppState) (tid : Nat) (tok : String)
    (hs : TaskIdsOk s) : TaskIdsOk (delete_task s tid tok).2 := by
  unfold delete_task
  split
  · exact hs
  · rename_i u hu
    split
    · rename_i pr d ts hf
      obtain ⟨l1, l3, e1, e2, _, _⟩ := removeFirst_eq_some s.tasks_db tid u.id d ts hf
      have hsub : ts.Sublist s.tasks_db := by
        rw [e1, e2]
        exact (List.sublist_cons_self d l3).append_left l1
      constructor
      · show (ts.map Task.id).Pairwise (· < ·)
        exact List.Pairwise.sublist (List.Sublist.map Task.id hsub) hs.1
      · show ∀ t ∈ ts, t.id < s.current_task_id
        intro t htm
        exact hs.2 t (hsub.subset htm)
    · exact hs

/-- Every reachable state satisfies the task-id invariant. -/
theorem reachable_task_ids (s : AppState) (h : Reachable s) : TaskIdsOk s := by
  induction h with
  | init => exact ⟨List.Pairwise.nil, by simp [initState]⟩
  | step_register s e n p _ ih =>
    exact TaskIdsOk_of_eq s _ (register_tasks_frame s e n p).1
      (register_tasks_frame s e n p).2 ih
  | step_login s e p tok _ ih =>
    exact TaskIdsOk_of_eq s _ (login_tasks_frame s e p tok).1
      (login_tasks_frame s e p tok).2 ih
  | step_logout s tok _ ih =>
    exact TaskIdsOk_of_eq s _ (logout_tasks_frame s tok).1
      (logout_tasks_frame s tok).2 ih
  | step_list s tok _ ih => exact (get_tasks_snd s tok).symm ▸ ih
  | step_create s td tok now _ ih => exact create_task_ids_ok s td tok now ih
  | step_update s tid td tok now _ ih => exact update_task_ids_ok s tid td tok now ih
  | step_delete s tid tok _ ih => exact delete_task_ids_ok s tid tok ih
  | step_get s tid tok _ ih => exact (get_task_snd s tid tok).symm ▸ ih

/-- C8: creation assigns the current id-counter value as the task id, stamps
both timestamps with the clock reading (minute resolution), appends to the
store, increments the counter by one, and returns the new task; the counter
starts at 1, and in every reachable state the stored task ids are strictly
increasing in creation order — hence globally unique — and below the
counter. -/
theorem C8_create_sequential_ids (s : AppState) (td : TaskCreate)
    (tok now : String) (u : User)
    (h : get_current_user s tok = .ok u) :
    create_task s td tok now =
      (.ok { id := s.current_task_id, user_id := u.id, title := td.title,
             description := td.description, priority := td.priority,
             status := td.status, created_at := now, updated_at := now },
       { s with
          tasks_db := s.tasks_db ++
            [{ id := s.current_task_id, user_id := u.id, title := td.title,
               description := td.description, priority := td.priority,
               status := td.status, created_at := now, updated_at := now }],
          current_task_id := s.current_task_id + 1 }) ∧
    initState.current_task_id = 1 ∧
    (∀ s2, Reachable s2 →
      (s2.tasks_db.map Task.id).Pairwise (· < ·) ∧
      ∀ t ∈ s2.tasks_db, t.id < s2.current_task_id) :=
  ⟨by simp [create_task, h], rfl, fun s2 h2 => reachable_task_ids s2 h2⟩

/-- Witness for C8 at a concrete state. -/
theorem C8_witness :
    create_task exampleState { title := "w8" } "tokA" "2025-01-02 13:00" =
      (.ok { id := 4, user_id := 1, title := "w8", description := none,
             priority := "media", status := "pendiente",
             created_at := "2025-01-02 13:00", updated_at := "2025-01-02 13:00" },
       { exampleState with
          tasks_db := exampleState.tasks_db ++
            [{ id := 4, user_id := 1, title := "w8", description := none,
               priority := "media", status := "pendiente",
               created_at := "2025-01-02 13:00", updated_at := "2025-01-02 13:00" }],
          current_task_id := 5 }) ∧
    initState.current_task_id = 1 ∧
    (∀ s2, Reachable s2 →
      (s2.tasks_db.map Task.id).Pairwise (· < ·) ∧
      ∀ t ∈ s2.tasks_db, t.id < s2.current_task_id) :=
  C8_create_sequential_ids exampleState { title := "w8" } "tokA" "2025-01-02 13:00"
    { id := 1, email := "a@x.com", name := "Ann" } (by decide)

end TaskMaster
